import Mathlib

/-!
Shallow embedding of the chat store and config store of the web client
(files src/web/src/stores/chat.js and src/web/src/stores/config.js),
together with the response-normalization layer described by the
specification. The concrete normalizer (backend.py and the Python core)
is not among the given sources, so that part is modelled from the
specification and marked as such on each definition.
-/

namespace AIChat

/-- Whitespace stripping on a character list: drop whitespace from the
front, then from the back. -/
def trimChars (l : List Char) : List Char :=
  ((l.dropWhile Char.isWhitespace).reverse.dropWhile Char.isWhitespace).reverse

/-- Embedding of the JavaScript call content.trim() used by sendMessage in
chat.js: whitespace removed from both ends of the string. -/
def jsTrim (s : String) : String := String.mk (trimChars s.data)

/-- Bool test that the first character list starts with the second. -/
def listStartsWith : List Char → List Char → Bool
  | _, [] => true
  | [], _ :: _ => false
  | a :: as, b :: bs => a == b && listStartsWith as bs

/-- Bool test that the second character list occurs contiguously inside
the first. -/
def listHasInfix : List Char → List Char → Bool
  | [], pat => pat.isEmpty
  | a :: as, pat => listStartsWith (a :: as) pat || listHasInfix as pat

/-- Substring containment on strings, used for the token-expiry pattern. -/
def hasSubstr (s pat : String) : Bool := listHasInfix s.data pat.data

/-- Error taxonomy of the specification, section 7. -/
inductive ErrorKind
  | validationError
  | notFound
  | networkError
  | timeout
  | authError
  | authExpired
  | providerError
  | providerUnavailable
  | malformedResponse
  | unrecognizedFormat
  | busy
  deriving DecidableEq

/-- Normalized result of one chat-completion call, specification section 3. -/
inductive ChatResult
  | success (content : String)
  | failure (kind : ErrorKind) (detail : String) (rawSnippet : String)
  deriving DecidableEq

/-- Message object nested inside an OpenAI-style choice; content is none
when the field is absent (JavaScript undefined). -/
structure RespMessage where
  content : Option String
  deriving DecidableEq

/-- One element of an OpenAI-style choices array. -/
structure RespChoice where
  message : RespMessage
  deriving DecidableEq

/-- Duck-typed view of a parsed response body: a field is some exactly when
the corresponding JSON field is present. The fields status, msg and body
form the iflow envelope; choices and content are the fields probed by
chat.js lines 52 to 58; raw is the serialized text of the whole body. The
envelope body field is modelled as the assistant text already extracted
from its provider-specific sub-path. -/
structure RespBody where
  status : Option String
  msg : Option String
  body : Option String
  choices : Option (List RespChoice)
  content : Option String
  raw : String
  deriving DecidableEq

/-- One entry of chatHistory in chat.js: id, role, content, timestamp. The
content is an Option so that an undefined value can be represented. -/
structure ChatMessage where
  id : String
  role : String
  content : Option String
  timestamp : String
  deriving DecidableEq

/-- State of the pinia chat store, chat.js lines 8 to 10: chatHistory,
isLoading, messageCounter. -/
structure ChatState where
  chatHistory : List ChatMessage
  isLoading : Bool
  messageCounter : Nat
  deriving DecidableEq

/-- Outcome of the awaited axios.post call in sendMessage: success carries
the parsed response.data, failure carries error.message (axios rejects on
non-2xx status, on the 30000 ms timeout, and on transport errors). -/
inductive CallOutcome
  | success (data : RespBody)
  | failure (errMessage : String)
  deriving DecidableEq

/-- Entry guard of sendMessage, chat.js line 17: a blank (all-whitespace)
input or an in-flight call makes the function return at once. -/
def sendGuard (st : ChatState) (content : String) : Bool :=
  jsTrim content == "" || st.isLoading

/-- First half of sendMessage, chat.js lines 19 to 29, up to the awaited
call: build the user message from the trimmed content, push it onto the
history, set isLoading, bump the counter. -/
def sendPhase1 (st : ChatState) (content tUser : String) : ChatState :=
  { chatHistory := st.chatHistory ++
      [⟨"msg_" ++ toString st.messageCounter, "user", some (jsTrim content), tUser⟩],
    isLoading := true,
    messageCounter := st.messageCounter + 1 }

/-- Shape sniffing of chat.js lines 52 to 58: a choices array with at least
one element wins and its first message content is taken; otherwise the
top-level content field is used when truthy; aiContent starts as the empty
string, and an empty content field is falsy, so both of those cases yield
the empty string, which getD collapses correctly. -/
def sniffContent (d : RespBody) : Option String :=
  match d.choices with
  | some (c :: _) => c.message.content
  | _ => some (d.content.getD "")

/-- Second half of sendMessage, chat.js lines 60 to 85, run after the
awaited call settles: push the assistant message (the sniffed reply on
success, the error text on failure) onto whatever chatHistory.value now
refers to, then clear isLoading in the finally block. -/
def sendPhase2 (st : ChatState) (outcome : CallOutcome) (tAi : String) : ChatState :=
  match outcome with
  | CallOutcome.success d =>
      { chatHistory := st.chatHistory ++
          [⟨"msg_" ++ toString st.messageCounter, "assistant", sniffContent d, tAi⟩],
        isLoading := false,
        messageCounter := st.messageCounter + 1 }
  | CallOutcome.failure e =>
      { chatHistory := st.chatHistory ++
          [⟨"msg_" ++ toString st.messageCounter, "assistant",
            some ("API调用失败: " ++ e), tAi⟩],
        isLoading := false,
        messageCounter := st.messageCounter + 1 }

/-- Whole sendMessage run, chat.js lines 16 to 86, with the network outcome
passed in explicitly. The async function returns undefined on every path,
so the second component is always none: no structured result value is ever
handed back to the caller. -/
def sendMessage (st : ChatState) (content : String) (outcome : CallOutcome)
    (tUser tAi : String) : ChatState × Option ChatResult :=
  if sendGuard st content then (st, none)
  else (sendPhase2 (sendPhase1 st content tUser) outcome tAi, none)

/-- Request-body message list built inside sendMessage, chat.js lines 37 to
40: the full history mapped to role and content pairs, in order. -/
def requestMessages (history : List ChatMessage) : List (String × Option String) :=
  history.map fun m => (m.role, m.content)

/-- Embedding of clearHistory, chat.js lines 89 to 91: the history becomes
the empty array; the counter and the loading flag are untouched. -/
def clearHistory (st : ChatState) : ChatState :=
  { st with chatHistory := [] }

/-- Configuration record held by the config store, config.js lines 7 to 13.
The temperature is a rational since no arithmetic is performed on it. -/
structure WebConfig where
  api_url : String
  api_key : String
  model : String
  temperature : Rat
  max_tokens : Int
  deriving DecidableEq

/-- Partial update passed to saveConfig: a field is some exactly when the
key is present on the JavaScript object. -/
structure ConfigPatch where
  api_url : Option String
  api_key : Option String
  model : Option String
  temperature : Option Rat
  max_tokens : Option Int
  deriving DecidableEq

/-- Spread merge of config.js line 48: keys present in the update override
the old record, all other keys keep their previous values. -/
def mergeConfig (old : WebConfig) (p : ConfigPatch) : WebConfig :=
  { api_url := p.api_url.getD old.api_url,
    api_key := p.api_key.getD old.api_key,
    model := p.model.getD old.model,
    temperature := p.temperature.getD old.temperature,
    max_tokens := p.max_tokens.getD old.max_tokens }

/-- State of the config store: the current record, the loading flag and the
last error text. -/
structure ConfigState where
  config : WebConfig
  loading : Bool
  error : Option String
  deriving DecidableEq

/-- Outcome of the awaited axios.post to the config endpoint. -/
inductive PostOutcome
  | ok
  | fail (msg : String)
  deriving DecidableEq

/-- Embedding of saveConfig, config.js lines 43 to 63: the merged record is
written to local state before the post is awaited, so it stays in place
even when the post fails; the Boolean is the return value of the function;
no field of the update is validated anywhere. -/
def saveConfig (st : ConfigState) (newConfig : ConfigPatch) (post : PostOutcome) :
    ConfigState × Bool :=
  let updated := mergeConfig st.config newConfig
  match post with
  | PostOutcome.ok => ({ config := updated, loading := false, error := none }, true)
  | PostOutcome.fail m =>
      ({ config := updated, loading := false,
         error := some ("保存配置失败: " ++ m) }, false)

/-- Modelled from the spec: the iflow status success sentinel of section
4.3 (a non-zero, non-ok status indicates failure); the concrete normalizer
(backend.py and the response handling of the Python core) is not among the
given sources. -/
def iflowOk (s : String) : Bool := s == "0" || s == "ok"

/-- Modelled from the spec: the provider-specific token-expiry message
pattern of section 4.3; the repository README quotes the provider message
as Your API Token has expired. -/
def tokenExpiredPattern : String := "Token has expired"

/-- Modelled from the spec: the bound N on the diagnostic snippet length. -/
def snippetBound : Nat := 200

/-- Modelled from the spec: the first snippetBound characters of the raw
body text, kept for diagnostics on unrecognized shapes. -/
def snippet (s : String) : String := String.mk (s.data.take snippetBound)

/-- Bool test that a body carries the iflow envelope: status, msg and body
fields all present (section 4.3, shape 1). -/
def isIflowEnvelope (b : RespBody) : Bool :=
  b.status.isSome && b.msg.isSome && b.body.isSome

/-- Modelled from the spec: the normalize operation of section 4.3. The
Response Normalizer itself lives in code outside the given sources
(backend.py and the Python core), so shape detection follows the wording
of the specification: the iflow envelope is tried first, then the
OpenAI-compatible shape, then the simplified shape, and any remaining body
is tagged UnrecognizedFormat with a truncated snippet of the raw text. -/
def normalize (b : RespBody) : ChatResult :=
  match b.status, b.msg, b.body with
  | some s, some m, some t =>
      if iflowOk s then ChatResult.success t
      else if hasSubstr m tokenExpiredPattern then
        ChatResult.failure ErrorKind.authExpired m ""
      else ChatResult.failure ErrorKind.providerError m ""
  | _, _, _ =>
      match b.choices with
      | some [] =>
          ChatResult.failure ErrorKind.malformedResponse "empty choices" (snippet b.raw)
      | some (c :: _) =>
          match c.message.content with
          | some t => ChatResult.success t
          | none =>
              ChatResult.failure ErrorKind.malformedResponse "missing message content"
                (snippet b.raw)
      | none =>
          match b.content with
          | some t => ChatResult.success t
          | none =>
              ChatResult.failure ErrorKind.unrecognizedFormat "unrecognized response format"
                (snippet b.raw)

/-- Empty idle chat state used by the concrete instances below. -/
def st0 : ChatState := ⟨[], false, 0⟩

/-- OpenAI-shaped body whose first choice carries the text Hi there!. -/
def respHi : RespBody :=
  ⟨none, none, none, some [⟨⟨some "Hi there!"⟩⟩], none, "raw"⟩

/-- Body matching none of the recognized shapes; its raw text has 14
characters, well under the snippet bound. -/
def fooBarBody : RespBody :=
  ⟨none, none, none, none, none, "\x7b\"foo\": \"bar\"\x7d"⟩

/-- Failure-status iflow envelope whose msg carries the expiry message. -/
def bExpired : RespBody :=
  ⟨some "error", some "API请求失败: Your API Token has expired", some "", none, none, "r"⟩

/-- Body matching all three recognized shapes at once. -/
def bAll : RespBody :=
  ⟨some "ok", some "", some "from-iflow", some [⟨⟨some "from-choices"⟩⟩], some "simple", "r"⟩

/-- Body matching the OpenAI shape and the simplified shape but not the
iflow envelope. -/
def bOpen : RespBody :=
  ⟨none, some "m", some "b", some [⟨⟨some "from-choices"⟩⟩], some "simple", "r"⟩

/-- Body matching only the simplified shape. -/
def bSimple : RespBody := ⟨none, none, none, none, some "simple", "r"⟩

/-- Baseline configuration used by the config-store instances. -/
def cfg0 : WebConfig :=
  ⟨"https://api.openai.com/v1/chat/completions", "sk-test", "gpt-3.5-turbo", 7 / 10, 1000⟩

/-- Patch violating every validation rule named by the claim: empty url,
temperature 5 outside the range 0 to 2, max tokens 0 below 1. -/
def badPatch : ConfigPatch := ⟨some "", none, none, some 5, some 0⟩

theorem take_append_pair {α : Type} (l : List α) (a b : α) :
    (l ++ [a, b]).take (l.length + 1) = l ++ [a] := by
  induction l with
  | nil => simp
  | cons x xs ih => simpa using ih

theorem sendGuard_eq_false (st : ChatState) (c : String)
    (h1 : jsTrim c ≠ "") (h2 : st.isLoading = false) : sendGuard st c = false := by
  simp [sendGuard, h1, h2]

theorem sendMessage_run (st : ChatState) (c : String) (o : CallOutcome) (tU tA : String)
    (h : sendGuard st c = false) :
    sendMessage st c o tU tA = (sendPhase2 (sendPhase1 st c tU) o tA, none) := by
  simp [sendMessage, h]

theorem data_ne_nil {s : String} (h : s ≠ "") : s.data ≠ [] := by
  intro hd
  apply h
  have he : s = String.mk s.data := rfl
  rw [he, hd]

theorem snippet_length (s : String) : (snippet s).length = min snippetBound s.length := by
  show (s.data.take snippetBound).length = min snippetBound s.length
  exact List.length_take snippetBound s.data

theorem snippet_ne_empty {s : String} (h : s ≠ "") : snippet s ≠ "" := by
  intro hs
  have h0 : (snippet s).length = 0 := by rw [hs]; rfl
  rw [snippet_length] at h0
  rcases Nat.min_eq_zero_iff.mp h0 with h3 | h3
  · exact absurd h3 (by decide)
  · exact data_ne_nil h (List.length_eq_zero.mp h3)

/-- C1 counterexample: a concrete failed call appends a new assistant-role
entry carrying the error text to the conversation history, so the claim
that no assistant entry is appended after a failure is false. -/
theorem sendMessage_failure_appends_assistant_cex :
    ((sendMessage st0 "Hello" (CallOutcome.failure "Network Error") "t1" "t2").1).chatHistory =
      [⟨"msg_0", "user", some "Hello", "t1"⟩,
       ⟨"msg_1", "assistant", some "API调用失败: Network Error", "t2"⟩] := by
  decide

/-- C1 (amended): after a failed call, sendMessage appends an assistant-role
message whose content is the error text prefixed with API调用失败, and this
entry is part of the history mapped into the request of future calls; the
failure detail is exposed to the caller through that history entry. -/
theorem sendMessage_failure_appends_error_message (st : ChatState) (c e tU tA : String)
    (h1 : jsTrim c ≠ "") (h2 : st.isLoading = false) :
    ((sendMessage st c (CallOutcome.failure e) tU tA).1).chatHistory =
      st.chatHistory ++
        [⟨"msg_" ++ toString st.messageCounter, "user", some (jsTrim c), tU⟩,
         ⟨"msg_" ++ toString (st.messageCounter + 1), "assistant",
           some ("API调用失败: " ++ e), tA⟩] ∧
    requestMessages ((sendMessage st c (CallOutcome.failure e) tU tA).1).chatHistory =
      requestMessages st.chatHistory ++
        [("user", some (jsTrim c)), ("assistant", some ("API调用失败: " ++ e))] := by
  rw [sendMessage_run st c (CallOutcome.failure e) tU tA (sendGuard_eq_false st c h1 h2)]
  constructor
  · simp [sendPhase1, sendPhase2]
  · simp [sendPhase1, sendPhase2, requestMessages]

/-- C1 witness: the amended statement evaluated on a failed 401 call. -/
theorem sendMessage_failure_appends_error_message_wit :
    ((sendMessage st0 "Hi" (CallOutcome.failure "Request failed with status code 401")
        "t1" "t2").1).chatHistory =
      [⟨"msg_0", "user", some "Hi", "t1"⟩,
       ⟨"msg_1", "assistant", some "API调用失败: Request failed with status code 401", "t2"⟩] :=
  (sendMessage_failure_appends_error_message st0 "Hi"
    "Request failed with status code 401" "t1" "t2" (by decide) rfl).1

/-- C2: each of the three recognized success shapes normalizes to Success
carrying exactly the text of that shape, and detection follows the fixed
priority order: a success-status iflow envelope wins regardless of any
other fields, the OpenAI shape wins over the simplified shape, and the
simplified shape applies only when no choices field is present. -/
theorem normalize_success_shapes_priority (b : RespBody) :
    (∀ s m t, b.status = some s → b.msg = some m → b.body = some t →
      iflowOk s = true → normalize b = ChatResult.success t) ∧
    (∀ c l t, isIflowEnvelope b = false → b.choices = some (c :: l) →
      c.message.content = some t → normalize b = ChatResult.success t) ∧
    (∀ t, isIflowEnvelope b = false → b.choices = none → b.content = some t →
      normalize b = ChatResult.success t) := by
  refine ⟨?_, ?_, ?_⟩
  · intro s m t hs hm ht hok
    simp [normalize, hs, hm, ht, hok]
  · intro c l t h1 hc hcont
    cases hbs : b.status <;> cases hbm : b.msg <;> cases hbb : b.body <;>
      simp_all [normalize, isIflowEnvelope]
  · intro t h1 hc hcont
    cases hbs : b.status <;> cases hbm : b.msg <;> cases hbb : b.body <;>
      simp_all [normalize, isIflowEnvelope]

/-- C2 witness: the three shapes on concrete bodies, including one body
carrying all three shapes at once, which the iflow branch wins, and one
carrying both the OpenAI and the simplified shape, which the OpenAI branch
wins. -/
theorem normalize_success_shapes_priority_wit :
    normalize bAll = ChatResult.success "from-iflow" ∧
    normalize bOpen = ChatResult.success "from-choices" ∧
    normalize bSimple = ChatResult.success "simple" :=
  ⟨(normalize_success_shapes_priority bAll).1 "ok" "" "from-iflow" rfl rfl rfl (by decide),
   (normalize_success_shapes_priority bOpen).2.1 ⟨⟨some "from-choices"⟩⟩ [] "from-choices"
     (by decide) rfl rfl,
   (normalize_success_shapes_priority bSimple).2.2 "simple" (by decide) rfl rfl⟩

/-- C3 counterexample: on the body of the claim itself, whose raw text has
14 characters, the snippet kept in the UnrecognizedFormat failure is the
whole raw body, so the clause that the snippet is never the full body is
false. -/
theorem normalize_unrecognized_snippet_full_body_cex :
    normalize fooBarBody =
      ChatResult.failure ErrorKind.unrecognizedFormat "unrecognized response format"
        fooBarBody.raw ∧
    snippet fooBarBody.raw = fooBarBody.raw := by
  decide

/-- C3 (amended): a body matching none of the three shapes normalizes to an
UnrecognizedFormat failure whose snippet is the first snippetBound
characters of the raw body: a prefix of the body, nonempty whenever the
body text is nonempty, of length at most snippetBound; it equals the full
body exactly when the body is no longer than the bound. -/
theorem normalize_unrecognized_snippet_bounded (b : RespBody)
    (h1 : isIflowEnvelope b = false) (h2 : b.choices = none) (h3 : b.content = none) :
    normalize b =
      ChatResult.failure ErrorKind.unrecognizedFormat "unrecognized response format"
        (snippet b.raw) ∧
    (snippet b.raw).data = b.raw.data.take snippetBound ∧
    (snippet b.raw).length ≤ snippetBound ∧
    (b.raw ≠ "" → snippet b.raw ≠ "") := by
  refine ⟨?_, rfl, ?_, fun h => snippet_ne_empty h⟩
  · cases hbs : b.status <;> cases hbm : b.msg <;> cases hbb : b.body <;>
      simp_all [normalize, isIflowEnvelope]
  · rw [snippet_length]
    exact Nat.min_le_left _ _

/-- C3 witness: the amended statement evaluated on a concrete shapeless
body. -/
theorem normalize_unrecognized_snippet_bounded_wit :
    normalize fooBarBody =
      ChatResult.failure ErrorKind.unrecognizedFormat "unrecognized response format"
        (snippet fooBarBody.raw) ∧
    snippet fooBarBody.raw ≠ "" :=
  ⟨(normalize_unrecognized_snippet_bounded fooBarBody (by decide) rfl rfl).1,
   (normalize_unrecognized_snippet_bounded fooBarBody (by decide) rfl rfl).2.2.2 (by decide)⟩

/-- C4: a failure-status iflow envelope whose msg contains the token-expiry
pattern normalizes to an AuthExpired failure carrying the msg as detail,
and not to a generic ProviderError failure. -/
theorem normalize_iflow_token_expired_auth_expired (b : RespBody) (s m t : String)
    (hs : b.status = some s) (hm : b.msg = some m) (ht : b.body = some t)
    (hfail : iflowOk s = false) (hexp : hasSubstr m tokenExpiredPattern = true) :
    normalize b = ChatResult.failure ErrorKind.authExpired m "" ∧
    normalize b ≠ ChatResult.failure ErrorKind.providerError m "" := by
  have h : normalize b = ChatResult.failure ErrorKind.authExpired m "" := by
    simp [normalize, hs, hm, ht, hfail, hexp]
  refine ⟨h, ?_⟩
  rw [h]
  simp

/-- C4 witness: the expiry message quoted by the repository README, inside a
failure-status envelope. -/
theorem normalize_iflow_token_expired_auth_expired_wit :
    normalize bExpired =
      ChatResult.failure ErrorKind.authExpired "API请求失败: Your API Token has expired" "" :=
  (normalize_iflow_token_expired_auth_expired bExpired "error"
    "API请求失败: Your API Token has expired" "" rfl rfl rfl (by decide) (by decide)).1

/-- C5 counterexample: a send arriving while a call is in flight returns
with no result value at all (the pair carries none, not a Busy failure),
leaving the state untouched, so the claim that it returns a Busy failure
is false. -/
theorem sendMessage_busy_returns_no_result_cex :
    sendMessage ⟨[⟨"msg_0", "user", some "Hey", "t0"⟩], true, 1⟩ "More"
      (CallOutcome.success respHi) "t3" "t4" =
      (⟨[⟨"msg_0", "user", some "Hey", "t0"⟩], true, 1⟩, none) := by
  decide

/-- C5 (amended): a send issued while isLoading is set returns immediately
with no result value (the call is silently dropped, neither queued nor
interleaved), leaving the history, the flag and the counter unaltered. -/
theorem sendMessage_busy_silent_drop (st : ChatState) (c : String) (o : CallOutcome)
    (tU tA : String) (h : st.isLoading = true) :
    sendMessage st c o tU tA = (st, none) := by
  simp [sendMessage, sendGuard, h]

/-- C5 witness: the amended statement evaluated on a concrete busy state. -/
theorem sendMessage_busy_silent_drop_wit :
    sendMessage ⟨[], true, 5⟩ "Hi" (CallOutcome.failure "x") "a" "b" =
      ((⟨[], true, 5⟩ : ChatState), none) :=
  sendMessage_busy_silent_drop ⟨[], true, 5⟩ "Hi" (CallOutcome.failure "x") "a" "b" rfl

/-- C6 counterexample: a reply in flight before clearHistory lands in the
new, emptied conversation when it arrives, so the claim that a stale reply
never appears in the new list is false. -/
theorem clear_midflight_stale_reply_appears_cex :
    (sendPhase2 (clearHistory (sendPhase1 st0 "Hello" "t1"))
        (CallOutcome.success respHi) "t2").chatHistory =
      [⟨"msg_1", "assistant", some "Hi there!", "t2"⟩] := by
  decide

/-- C6 (amended): the store keeps no generation counter, so when a call that
was in flight before clearHistory settles, its reply is pushed onto the
new, emptied history: the new conversation consists of exactly the stale
assistant reply. -/
theorem clear_midflight_stale_reply_appended (st : ChatState) (c : String) (d : RespBody)
    (tU tA : String) :
    (sendPhase2 (clearHistory (sendPhase1 st c tU)) (CallOutcome.success d) tA).chatHistory =
      [⟨"msg_" ++ toString (st.messageCounter + 1), "assistant", sniffContent d, tA⟩] := by
  simp [sendPhase1, clearHistory, sendPhase2]

/-- C7: whenever a send starts from an idle store, the isLoading flag is
false again once the call settles, whatever the outcome, so a later send is
never permanently blocked. -/
theorem sendMessage_resets_isLoading (st : ChatState) (c : String) (o : CallOutcome)
    (tU tA : String) (h : st.isLoading = false) :
    ((sendMessage st c o tU tA).1).isLoading = false := by
  cases hgb : sendGuard st c with
  | true => simp [sendMessage, hgb, h]
  | false =>
      rw [sendMessage_run st c o tU tA hgb]
      cases o <;> simp [sendPhase2]

/-- C7 witness: the flag after a concrete successful send. -/
theorem sendMessage_resets_isLoading_wit :
    ((sendMessage st0 "Ping" (CallOutcome.success respHi) "t1" "t2").1).isLoading = false :=
  sendMessage_resets_isLoading st0 "Ping" (CallOutcome.success respHi) "t1" "t2" rfl

/-- C8 counterexample: a patch with an empty api url, temperature 5 and max
tokens 0 is accepted: the stored configuration changes to those values and
the call reports success, so the claim that invalid records fail with
ValidationError and leave the store unchanged is false. -/
theorem saveConfig_no_validation_cex :
    ((saveConfig ⟨cfg0, false, none⟩ badPatch PostOutcome.ok).1).config.api_url = "" ∧
    ((saveConfig ⟨cfg0, false, none⟩ badPatch PostOutcome.ok).1).config.temperature = 5 ∧
    ((saveConfig ⟨cfg0, false, none⟩ badPatch PostOutcome.ok).1).config.max_tokens = 0 ∧
    (saveConfig ⟨cfg0, false, none⟩ badPatch PostOutcome.ok).2 = true :=
  ⟨rfl, rfl, rfl, rfl⟩

/-- C8 (amended): saveConfig validates nothing: for every patch, including
ones with an empty api url or out-of-range temperature or max tokens, the
spread merge of the old record with the patch is stored, and the Boolean
result reflects only the outcome of the post to the server. -/
theorem saveConfig_accepts_any_patch (st : ConfigState) (p : ConfigPatch) (m : String) :
    ((saveConfig st p PostOutcome.ok).1).config = mergeConfig st.config p ∧
    (saveConfig st p PostOutcome.ok).2 = true ∧
    ((saveConfig st p (PostOutcome.fail m)).1).config = mergeConfig st.config p ∧
    (saveConfig st p (PostOutcome.fail m)).2 = false :=
  ⟨rfl, rfl, rfl, rfl⟩

/-- C9: the user message appended by a send carries the trimmed content:
the first entry added to the history is the user message whose content is
the trimmed input, not the raw input. -/
theorem sendMessage_appends_trimmed_user_message (st : ChatState) (c : String)
    (o : CallOutcome) (tU tA : String) (h1 : jsTrim c ≠ "") (h2 : st.isLoading = false) :
    ((sendMessage st c o tU tA).1).chatHistory.take (st.chatHistory.length + 1) =
      st.chatHistory ++
        [⟨"msg_" ++ toString st.messageCounter, "user", some (jsTrim c), tU⟩] := by
  rw [sendMessage_run st c o tU tA (sendGuard_eq_false st c h1 h2)]
  cases o <;>
    (dsimp only [sendPhase1, sendPhase2]
     rw [List.append_assoc]
     exact take_append_pair _ _ _)

/-- C9 witness: an input with surrounding whitespace is stored trimmed. -/
theorem sendMessage_appends_trimmed_user_message_wit :
    ((sendMessage st0 "  Hello  " (CallOutcome.failure "x") "t1" "t2").1).chatHistory.take 1 =
      [⟨"msg_0", "user", some "Hello", "t1"⟩] :=
  sendMessage_appends_trimmed_user_message st0 "  Hello  " (CallOutcome.failure "x")
    "t1" "t2" (by decide) rfl

/-- C10: the stored configuration after saveConfig is the spread merge of
the old configuration with the patch, and every field absent from the
patch keeps its previous value, whatever the post outcome. -/
theorem saveConfig_preserves_absent_fields (st : ConfigState) (p : ConfigPatch)
    (post : PostOutcome) :
    ((saveConfig st p post).1).config = mergeConfig st.config p ∧
    (p.api_url = none → ((saveConfig st p post).1).config.api_url = st.config.api_url) ∧
    (p.api_key = none → ((saveConfig st p post).1).config.api_key = st.config.api_key) ∧
    (p.model = none → ((saveConfig st p post).1).config.model = st.config.model) ∧
    (p.temperature = none →
      ((saveConfig st p post).1).config.temperature = st.config.temperature) ∧
    (p.max_tokens = none →
      ((saveConfig st p post).1).config.max_tokens = st.config.max_tokens) := by
  have hc : ((saveConfig st p post).1).config = mergeConfig st.config p := by
    cases post <;> rfl
  refine ⟨hc, fun h => ?_, fun h => ?_, fun h => ?_, fun h => ?_, fun h => ?_⟩ <;>
    rw [hc] <;> simp [mergeConfig, h]

/-- C10 witness: updating only the url keeps the stored key unchanged. -/
theorem saveConfig_preserves_absent_fields_wit :
    ((saveConfig ⟨cfg0, false, none⟩
        ⟨some "https://example.com/v1", none, none, none, none⟩
        PostOutcome.ok).1).config.api_key = "sk-test" :=
  (saveConfig_preserves_absent_fields ⟨cfg0, false, none⟩
    ⟨some "https://example.com/v1", none, none, none, none⟩ PostOutcome.ok).2.2.1 rfl

end AIChat
